import Mathlib

/-!
Shallow embedding of `src/storage/database.py` (the conversation store and
cleanup subsystem of the Nate repository).

Modelling conventions:
* timestamps (`datetime.now(timezone.utc)` values) are `Nat`;
* a `Dict[str, str]` message is an association list `List (String × String)`;
* the MongoDB `conversations` collection is a `List Conversation` of the
  stored documents (document order = insertion order; `find_one` returns the
  first match, as Mongo does without a sort);
* Python `set`s are materialized as `List String` and used only through
  membership, which matches how the code uses them;
* a fallible call carries an explicit `Bool` flag saying whether that call
  raises; a raised exception is `Except.error ()`.
-/

abbrev Msg := List (String × String)

/-- The `Conversation` pydantic model (database.py lines 25-29):
`channel_id : str`, `messages : List[Dict[str, str]]`, and two datetime
fields with class-level defaults. -/
structure Conversation where
  channel_id : String
  messages : List Msg
  created_at : Nat
  updated_at : Nat
deriving DecidableEq, Repr

/-- Construction of a `Conversation` that omits the timestamp fields.
Python evaluates the default expressions `datetime.now(timezone.utc)` in the
class body exactly once, when the class statement executes (module import);
pydantic v1 then reuses that fixed value for every instance that omits the
field. `classDefTime` is the result of that single evaluation and
`constructionTime` is the wall clock at the moment the object is built; the
code consults only the former. -/
def Conversation.mkWithDefaults (classDefTime : Nat) (cid : String)
    (msgs : List Msg) (constructionTime : Nat) : Conversation :=
  { channel_id := cid, messages := msgs,
    created_at := classDefTime, updated_at := classDefTime }

/-- `self.conversations.find_one({"channel_id": channel_id})`: first stored
document whose `channel_id` matches. -/
def find_one (store : List Conversation) (cid : String) : Option Conversation :=
  store.find? (fun c => decide (c.channel_id = cid))

/-- `self.conversations.update_one({"channel_id": ...}, {"$set": doc}, upsert=True)`:
replace the first document with the matching key by `doc` (the `$set` payload
is the full `conversation.dict()`, so every field of the match is overwritten),
or append `doc` when no document matches (the upsert insert path). -/
def update_one (store : List Conversation) (doc : Conversation) : List Conversation :=
  match store with
  | [] => [doc]
  | c :: rest =>
    if c.channel_id = doc.channel_id then doc :: rest
    else c :: update_one rest doc

/-- `self.conversations.delete_many({"channel_id": {"$in": ids}})`: removes
every stored document whose `channel_id` is in `ids`; returns the new store
and the `deleted_count` reported by the result. -/
def delete_many (store : List Conversation) (ids : List String) :
    List Conversation × Nat :=
  (store.filter (fun c => decide (c.channel_id ∉ ids)),
   (store.filter (fun c => decide (c.channel_id ∈ ids))).length)

/-- Line 125 of `save_conversation`:
`conversation.updated_at = datetime.now(timezone.utc)` — the in-place
mutation of the caller's object, performed before the write is attempted. -/
def setUpdatedAt (now : Nat) (conv : Conversation) : Conversation :=
  { conv with updated_at := now }

/-- `DatabaseClient.save_conversation` (lines 122-134). First mutates the
argument's `updated_at` in place, then issues the upsert. The first component
is the caller's `Conversation` object as it stands after the call (the
mutation survives a failed write, since the except-clause re-raises without
undoing it); the second is the outcome: `Except.error ()` when `update_one`
raises (logged and re-raised), otherwise the new store paired with
`result.acknowledged` (always `true` for an acknowledged write). -/
def save_conversation (writeFails : Bool) (now : Nat) (conv : Conversation)
    (store : List Conversation) :
    Conversation × Except Unit (List Conversation × Bool) :=
  let conv' := setUpdatedAt now conv
  if writeFails then (conv', Except.error ())
  else (conv', Except.ok (update_one store conv', true))

/-- The store after a successful `save_conversation` call at clock `now`. -/
def saveStore (now : Nat) (conv : Conversation) (store : List Conversation) :
    List Conversation :=
  update_one store (setUpdatedAt now conv)

/-- `DatabaseClient.get_conversation` (lines 113-120): raises on transport
failure, otherwise wraps `find_one` (document decoding back through
`Conversation(**result)` is the identity in this embedding). -/
def get_conversation (findFails : Bool) (store : List Conversation)
    (cid : String) : Except Unit (Option Conversation) :=
  if findFails then Except.error ()
  else Except.ok (find_one store cid)

/-- `DatabaseClient.delete_conversation` (lines 136-143), success path:
`delete_one` removes the first matching document and the method returns
`deleted_count > 0`. -/
def delete_conversation (store : List Conversation) (cid : String) :
    List Conversation × Bool :=
  match store with
  | [] => ([], false)
  | c :: rest =>
    if c.channel_id = cid then (rest, true)
    else
      let r := delete_conversation rest cid
      (c :: r.1, r.2)

theorem saveStore_eq_save_conversation (now : Nat) (conv : Conversation)
    (store : List Conversation) :
    (save_conversation false now conv store).2 =
      Except.ok (saveStore now conv store, true) := rfl

/-- A Discord guild as the cleanup routine sees it: `guild.text_channels`,
each contributing `str(channel.id)`; the ids are kept as strings here. -/
structure Guild where
  text_channels : List String
deriving DecidableEq, Repr

/-- The `bot` object handed to `_cleanup_routine`: `bot.guilds`. -/
structure DiscordBot where
  guilds : List Guild
deriving DecidableEq, Repr

/-- Lines 86-89: the `channel_id`s of every stored document (the code
materializes them into `stored_channel_ids : set`). -/
def storedChannelIds (store : List Conversation) : List String :=
  store.map (fun c => c.channel_id)

/-- Lines 92-95: every `str(channel.id)` over `bot.guilds`'s text channels,
materialized into `active_channel_ids : set`. -/
def activeChannelIds (bot : DiscordBot) : List String :=
  bot.guilds.foldr (fun g acc => g.text_channels ++ acc) []

/-- Line 98: `deleted_channels = stored_channel_ids - active_channel_ids`,
the set difference at the identifier level. -/
def deletedChannels (stored active : List String) : List String :=
  stored.filter (fun cid => decide (cid ∉ active))

/-- The failure environment of one iteration of `_cleanup_routine`'s loop:
whether the stored-ids cursor raises, whether iterating `bot.guilds` (the
channel-directory fetch) raises, whether `delete_many` raises, and the live
channels the bot reports this cycle. -/
structure SweepEnv where
  findFails : Bool
  directoryFails : Bool
  deleteFails : Bool
  bot : DiscordBot
deriving DecidableEq, Repr

/-- One iteration of `_cleanup_routine`'s loop body (lines 84-108): the try
block fetches stored ids, fetches active ids, computes the difference, and —
only when `deleted_channels` is non-empty — issues one batch `delete_many`.
Any exception in the try block reaches the single `except Exception` handler,
which logs once and falls through to the sleep, leaving the store as the
failed call left it; a raise in the cursor, in the guild iteration, or in
`delete_many` (modelled as raising before any document is removed) therefore
leaves the store unchanged. Returns the store after the iteration and whether
the except-branch logged an error. -/
def cleanupSweep (env : SweepEnv) (store : List Conversation) :
    List Conversation × Bool :=
  if env.findFails then (store, true)
  else if env.directoryFails then (store, true)
  else
    let stored := storedChannelIds store
    let active := activeChannelIds env.bot
    let deleted := deletedChannels stored active
    if deleted.isEmpty then (store, false)
    else if env.deleteFails then (store, true)
    else ((delete_many store deleted).1, false)

/-- The `while self.is_running` loop of `_cleanup_routine`, one `SweepEnv`
per iteration: every iteration runs its sweep (errors are caught inside the
iteration, so an error in one cycle never prevents the next), then sleeps 24h
(elided) and continues. Returns the store after the listed cycles. -/
def cleanupRoutine (envs : List SweepEnv) (store : List Conversation) :
    List Conversation :=
  match envs with
  | [] => store
  | env :: rest => cleanupRoutine rest (cleanupSweep env store).1

/-- Where the reconciliation coroutine stands: executing its loop body, or
suspended in the 24-hour `asyncio.sleep`. -/
inductive Phase where
  | sweeping
  | sleeping
deriving DecidableEq, Repr

/-- The lifecycle-relevant state of a `DatabaseClient` process:
`cleanup_task` is the `self.cleanup_task` reference together with the phase
of the coroutine it points to, `is_running` is `self.is_running`,
`liveTasks` counts the reconciliation coroutines currently alive in the
process, and `sweepCount` counts completed sweep cycles. -/
structure LState where
  cleanup_task : Option Phase
  is_running : Bool
  liveTasks : Nat
  sweepCount : Nat
deriving DecidableEq, Repr

/-- A fresh `DatabaseClient` (lines 45-46): no task, not running. -/
def initialState : LState :=
  { cleanup_task := none, is_running := false, liveTasks := 0, sweepCount := 0 }

/-- `DatabaseClient.start_cleanup_task` (lines 52-62): only when
`self.cleanup_task is None` does it set `is_running`, spawn the coroutine
via `asyncio.create_task` (one more live task, which begins in its loop
body), and store the reference; otherwise the call does nothing. -/
def start_cleanup_task (s : LState) : LState :=
  if s.cleanup_task = none then
    { cleanup_task := some Phase.sweeping, is_running := true,
      liveTasks := s.liveTasks + 1, sweepCount := s.sweepCount }
  else s

/-- `DatabaseClient.stop_cleanup_task` (lines 64-74): when a task reference
exists it clears `is_running`, cancels the task (the `CancelledError` raised
at the coroutine's next suspension point — its sleep — is not caught by the
routine's `except Exception`, so the coroutine exits without completing
another sweep and stops being live), awaits it with
`except asyncio.CancelledError: pass` so nothing propagates to the caller
(hence `Except.ok` on every path), and clears the reference. With no task it
returns at once. -/
def stop_cleanup_task (s : LState) : Except Unit LState :=
  if s.cleanup_task.isSome then
    Except.ok { cleanup_task := none, is_running := false,
                liveTasks := s.liveTasks - 1, sweepCount := s.sweepCount }
  else Except.ok s

/-- The state after `stop_cleanup_task` returns to its caller. -/
def stopState (s : LState) : LState :=
  match stop_cleanup_task s with
  | Except.ok s' => s'
  | Except.error _ => s

/-- The running coroutine finishes one pass of the loop body and enters
`asyncio.sleep(24 * 60 * 60)`. -/
def finishSweep (s : LState) : LState :=
  if s.cleanup_task = some Phase.sweeping then
    { s with cleanup_task := some Phase.sleeping, sweepCount := s.sweepCount + 1 }
  else s

/-- The sleep elapses and the coroutine re-checks `while self.is_running`:
if still running it begins the next sweep; otherwise the loop guard fails and
the coroutine returns (no longer live, though `self.cleanup_task` would still
hold the finished task — a state the atomic `stop_cleanup_task` above never
exposes, since it clears the flag and the reference in one step). -/
def wakeFromSleep (s : LState) : LState :=
  if s.cleanup_task = some Phase.sleeping then
    if s.is_running then { s with cleanup_task := some Phase.sweeping }
    else { s with liveTasks := s.liveTasks - 1 }
  else s

/-- The events that can touch the lifecycle state. -/
inductive LOp where
  | start
  | stop
  | finish
  | wake
deriving DecidableEq, Repr

def applyOp (s : LState) : LOp → LState
  | LOp.start => start_cleanup_task s
  | LOp.stop => stopState s
  | LOp.finish => finishSweep s
  | LOp.wake => wakeFromSleep s

/-- A reachable lifecycle state: any event sequence applied to a fresh client. -/
def runOps (ops : List LOp) : LState :=
  ops.foldl applyOp initialState

/-- The inductive invariant of the lifecycle: the running flag tracks the
task reference, and the number of live coroutines is 1 when a task reference
is held and 0 otherwise. -/
def LInv (s : LState) : Prop :=
  s.is_running = s.cleanup_task.isSome ∧
  s.liveTasks = (if s.cleanup_task.isSome then 1 else 0)

theorem find_one_update_one (store : List Conversation) (doc : Conversation) :
    find_one (update_one store doc) doc.channel_id = some doc := by
  induction store with
  | nil => simp [update_one, find_one]
  | cons c rest ih =>
    by_cases hc : c.channel_id = doc.channel_id
    · simp [update_one, find_one, hc]
    · simp only [update_one, if_neg hc]
      simpa [find_one, List.find?, hc] using ih

theorem find_one_saveStore (now : Nat) (conv : Conversation)
    (store : List Conversation) :
    find_one (saveStore now conv store) conv.channel_id =
      some (setUpdatedAt now conv) := by
  have h := find_one_update_one store (setUpdatedAt now conv)
  simpa [saveStore, setUpdatedAt] using h

/-- C8: a successful `save_conversation` of `conv` followed immediately by
`get_conversation` on `conv.channel_id` (no interleaving writes) returns the
document that was written, whose `messages` field exactly equals
`conv.messages` (round-trip fidelity). -/
theorem claim_C8 (store : List Conversation) (conv : Conversation) (now : Nat) :
    find_one (saveStore now conv store) conv.channel_id =
      some (setUpdatedAt now conv) ∧
    (setUpdatedAt now conv).messages = conv.messages :=
  ⟨find_one_saveStore now conv store, rfl⟩

/-- C2 counterexample: the channel `"ch"` is first persisted with
`created_at = 5`; a later save that passes a `Conversation` carrying
`created_at = 99` makes the stored `created_at` equal `99`, not the
pre-existing `5` — `update_one`'s `$set` payload is the full document, so
the claim that a subsequent save leaves the stored `created_at` unchanged
regardless of the value carried by the argument is false. -/
theorem claim_C2_counterexample :
    (find_one
        (saveStore 20
          { channel_id := "ch", messages := [], created_at := 99, updated_at := 0 }
          (saveStore 10
            { channel_id := "ch", messages := [], created_at := 5, updated_at := 5 }
            []))
        "ch").map (fun c => c.created_at) = some 99 ∧
    (find_one
        (saveStore 20
          { channel_id := "ch", messages := [], created_at := 99, updated_at := 0 }
          (saveStore 10
            { channel_id := "ch", messages := [], created_at := 5, updated_at := 5 }
            []))
        "ch").map (fun c => c.created_at) ≠ some 5 := by
  constructor <;> decide

/-- C2 (amended): after a successful save, the stored document's
`created_at` equals the `created_at` carried by the `Conversation` passed to
save — the upsert writes the full document, so a pre-existing `created_at`
is preserved only when the caller passes the original value. -/
theorem claim_C2 (now : Nat) (conv : Conversation) (store : List Conversation) :
    find_one (saveStore now conv store) conv.channel_id =
      some (setUpdatedAt now conv) ∧
    (setUpdatedAt now conv).created_at = conv.created_at :=
  ⟨find_one_saveStore now conv store, rfl⟩

/-- C9: the default timestamps of `Conversation` are evaluated once, when
the class is defined: two constructions that omit the timestamps, at
arbitrary distinct construction times, carry the same `created_at` (and the
same `updated_at`), namely the class-definition-time value, not the time of
their own construction. -/
theorem claim_C9 (classDefTime t₁ t₂ : Nat) (cid₁ cid₂ : String)
    (msgs₁ msgs₂ : List Msg) :
    (Conversation.mkWithDefaults classDefTime cid₁ msgs₁ t₁).created_at =
      (Conversation.mkWithDefaults classDefTime cid₂ msgs₂ t₂).created_at ∧
    (Conversation.mkWithDefaults classDefTime cid₁ msgs₁ t₁).updated_at =
      (Conversation.mkWithDefaults classDefTime cid₂ msgs₂ t₂).updated_at ∧
    (Conversation.mkWithDefaults classDefTime cid₁ msgs₁ t₁).created_at =
      classDefTime :=
  ⟨rfl, rfl, rfl⟩

/-- C10: `save_conversation` mutates its argument — the caller's object
comes back with `updated_at` overwritten by the clock taken at the save,
whether or not the write subsequently fails (and on failure the exception is
re-raised), while `channel_id`, `messages` and `created_at` are untouched. -/
theorem claim_C10 (now : Nat) (conv : Conversation) (store : List Conversation) :
    (save_conversation true now conv store).1 = setUpdatedAt now conv ∧
    (save_conversation false now conv store).1 = setUpdatedAt now conv ∧
    (save_conversation true now conv store).2 = Except.error () ∧
    (setUpdatedAt now conv).updated_at = now ∧
    (setUpdatedAt now conv).channel_id = conv.channel_id ∧
    (setUpdatedAt now conv).messages = conv.messages ∧
    (setUpdatedAt now conv).created_at = conv.created_at :=
  ⟨rfl, rfl, rfl, rfl, rfl, rfl, rfl⟩

theorem mem_deletedChannels (stored active : List String) (cid : String) :
    cid ∈ deletedChannels stored active ↔ cid ∈ stored ∧ cid ∉ active := by
  simp [deletedChannels]

theorem mem_delete_many (store : List Conversation) (ids : List String)
    (c : Conversation) :
    c ∈ (delete_many store ids).1 ↔ c ∈ store ∧ c.channel_id ∉ ids := by
  simp [delete_many]

theorem deletedChannels_isEmpty (stored active : List String) :
    (deletedChannels stored active).isEmpty = true ↔
      ∀ cid ∈ stored, cid ∈ active := by
  rw [List.isEmpty_iff]
  constructor
  · intro h cid hcid
    by_contra hact
    have : cid ∈ deletedChannels stored active :=
      (mem_deletedChannels stored active cid).mpr ⟨hcid, hact⟩
    simp [h] at this
  · intro h
    rcases he : deletedChannels stored active with _ | ⟨cid, rest⟩
    · rfl
    · have : cid ∈ deletedChannels stored active := by rw [he]; exact List.mem_cons_self _ _
      rcases (mem_deletedChannels stored active cid).mp this with ⟨h1, h2⟩
      exact absurd (h cid h1) h2

theorem cleanupSweep_ok_mem (bot : DiscordBot) (store : List Conversation)
    (c : Conversation) :
    c ∈ (cleanupSweep ⟨false, false, false, bot⟩ store).1 ↔
      c ∈ store ∧ c.channel_id ∈ activeChannelIds bot := by
  by_cases hd :
      (deletedChannels (storedChannelIds store) (activeChannelIds bot)).isEmpty
  · rw [cleanupSweep]
    simp only [Bool.false_eq_true, if_false, hd, if_true]
    constructor
    · intro hc
      refine ⟨hc, ?_⟩
      exact (deletedChannels_isEmpty _ _).mp hd c.channel_id
        (List.mem_map_of_mem _ hc)
    · exact fun hc => hc.1
  · rw [cleanupSweep]
    simp only [Bool.false_eq_true, if_false, hd]
    rw [mem_delete_many]
    constructor
    · rintro ⟨hc, hnd⟩
      refine ⟨hc, ?_⟩
      by_contra hact
      exact hnd ((mem_deletedChannels _ _ _).mpr
        ⟨List.mem_map_of_mem _ hc, hact⟩)
    · rintro ⟨hc, hact⟩
      refine ⟨hc, fun hnd => ?_⟩
      exact ((mem_deletedChannels _ _ _).mp hnd).2 hact

/-- C1: a successful sweep deletes exactly the conversations whose
`channel_id` is stored but not live, and creates none — membership in the
post-sweep store is membership in the pre-sweep store together with liveness
of the channel id; instantiated on stored channels `{A, B, C}` and live
channels `{B, C, D}`, one sweep leaves exactly `{B, C}`, deleting `A` and
never creating `D`. -/
theorem claim_C1 :
    (∀ (bot : DiscordBot) (store : List Conversation) (c : Conversation),
        c ∈ (cleanupSweep ⟨false, false, false, bot⟩ store).1 ↔
          c ∈ store ∧ c.channel_id ∈ activeChannelIds bot) ∧
    (cleanupSweep ⟨false, false, false, ⟨[⟨["B", "C", "D"]⟩]⟩⟩
        [⟨"A", [], 0, 0⟩, ⟨"B", [], 0, 0⟩, ⟨"C", [], 0, 0⟩]).1 =
      [⟨"B", [], 0, 0⟩, ⟨"C", [], 0, 0⟩] := by
  refine ⟨cleanupSweep_ok_mem, by decide⟩

/-- C3 counterexample: with stored conversations `A` and `B`, no live
channels (both are orphans), and the sweep's `delete_many` call raising
(the routine issues the deletions as this one batch call, so a failure
while deleting one specific orphan is a failure of that call), orphan `B` —
whose own deletion did not fail — is still present after the sweep: the
failure aborts the deletion of the remaining orphans, contradicting the
claim. -/
theorem claim_C3_counterexample :
    ("B" ∈ deletedChannels
        (storedChannelIds [⟨"A", [], 0, 0⟩, ⟨"B", [], 0, 0⟩])
        (activeChannelIds ⟨[]⟩)) ∧
    (⟨"B", [], 0, 0⟩ : Conversation) ∈
      (cleanupSweep ⟨false, false, true, ⟨[]⟩⟩
        [⟨"A", [], 0, 0⟩, ⟨"B", [], 0, 0⟩]).1 := by
  constructor <;> decide

/-- C3 (amended): the routine deletes all orphans of a sweep in a single
`delete_many` call; when that call fails, the error is logged once for the
whole sweep (not per channel id), no orphan is deleted in that sweep, and
the failure does not abort the loop — the remaining cycles still run their
sweeps on the unchanged store. -/
theorem claim_C3 (bot : DiscordBot) (store : List Conversation)
    (rest : List SweepEnv)
    (h : (deletedChannels (storedChannelIds store)
        (activeChannelIds bot)).isEmpty = false) :
    cleanupSweep ⟨false, false, true, bot⟩ store = (store, true) ∧
    cleanupRoutine (⟨false, false, true, bot⟩ :: rest) store =
      cleanupRoutine rest store := by
  constructor
  · simp [cleanupSweep, h]
  · simp [cleanupRoutine, cleanupSweep, h]

theorem claim_C3_witness :
    cleanupSweep ⟨false, false, true, ⟨[]⟩⟩ [⟨"A", [], 0, 0⟩] =
      ([⟨"A", [], 0, 0⟩], true) ∧
    cleanupRoutine [⟨false, false, true, ⟨[]⟩⟩] [⟨"A", [], 0, 0⟩] =
      cleanupRoutine [] [⟨"A", [], 0, 0⟩] :=
  claim_C3 ⟨[]⟩ [⟨"A", [], 0, 0⟩] [] (by decide)

/-- C4: when the channel-directory fetch raises during a sweep (and the
stored-ids fetch did not), the sweep performs no deletions — the store is
returned unchanged — the error is logged (`true`) and swallowed, and the
loop goes on to run the remaining cycles exactly as it would from the
untouched store. -/
theorem claim_C4 (env : SweepEnv) (store : List Conversation)
    (rest : List SweepEnv)
    (hdir : env.directoryFails = true) (hfind : env.findFails = false) :
    cleanupSweep env store = (store, true) ∧
    cleanupRoutine (env :: rest) store = cleanupRoutine rest store := by
  constructor
  · simp [cleanupSweep, hdir, hfind]
  · simp [cleanupRoutine, cleanupSweep, hdir, hfind]

theorem claim_C4_witness :
    cleanupSweep ⟨false, true, false, ⟨[]⟩⟩ [⟨"A", [], 0, 0⟩] =
      ([⟨"A", [], 0, 0⟩], true) ∧
    cleanupRoutine [⟨false, true, false, ⟨[]⟩⟩] [⟨"A", [], 0, 0⟩] =
      cleanupRoutine [] [⟨"A", [], 0, 0⟩] :=
  claim_C4 ⟨false, true, false, ⟨[]⟩⟩ [⟨"A", [], 0, 0⟩] [] rfl rfl

theorem linv_initial : LInv initialState :=
  ⟨rfl, rfl⟩

theorem linv_applyOp (s : LState) (op : LOp) (h : LInv s) :
    LInv (applyOp s op) := by
  obtain ⟨h1, h2⟩ := h
  cases op with
  | start =>
    by_cases hc : s.cleanup_task = none
    · simp [hc] at h2
      simp [applyOp, start_cleanup_task, hc, LInv, h2]
    · simpa [applyOp, start_cleanup_task, hc, LInv] using ⟨h1, h2⟩
  | stop =>
    by_cases hc : s.cleanup_task.isSome
    · simp [hc] at h2
      simp [applyOp, stopState, stop_cleanup_task, hc, LInv, h2]
    · have hss : stopState s = s := by simp [stopState, stop_cleanup_task, hc]
      simpa [applyOp, hss, LInv] using ⟨h1, h2⟩
  | finish =>
    by_cases hc : s.cleanup_task = some Phase.sweeping
    · simp [hc] at h1 h2
      simp [applyOp, finishSweep, hc, LInv, h1, h2]
    · simpa [applyOp, finishSweep, hc, LInv] using ⟨h1, h2⟩
  | wake =>
    by_cases hc : s.cleanup_task = some Phase.sleeping
    · have hrun : s.is_running = true := by rw [h1, hc]; rfl
      simp [hc] at h1 h2
      simp [applyOp, wakeFromSleep, hc, hrun, LInv, h1, h2]
    · simpa [applyOp, wakeFromSleep, hc, LInv] using ⟨h1, h2⟩

theorem linv_runOps (ops : List LOp) : LInv (runOps ops) := by
  have general : ∀ (l : List LOp) (s : LState), LInv s → LInv (l.foldl applyOp s) := by
    intro l
    induction l with
    | nil => exact fun s hs => hs
    | cons op rest ih => exact fun s hs => ih _ (linv_applyOp s op hs)
  exact general ops initialState linv_initial

/-- C5: in every reachable lifecycle state, at most one reconciliation
coroutine is live in the process, and `start_cleanup_task` is idempotent —
whenever a task reference is already held, calling start again is a no-op
and spawns nothing. -/
theorem claim_C5 :
    (∀ ops : List LOp, (runOps ops).liveTasks ≤ 1) ∧
    (∀ s : LState, s.cleanup_task.isSome = true → start_cleanup_task s = s) := by
  constructor
  · intro ops
    have h := (linv_runOps ops).2
    by_cases hc : (runOps ops).cleanup_task.isSome <;> simp [hc] at h <;> omega
  · intro s hs
    rw [start_cleanup_task, if_neg]
    intro hn
    rw [hn] at hs
    exact Bool.noConfusion hs

theorem claim_C5_witness :
    (runOps [LOp.start, LOp.start]).liveTasks ≤ 1 ∧
    start_cleanup_task (runOps [LOp.start]) = runOps [LOp.start] :=
  ⟨claim_C5.1 [LOp.start, LOp.start], claim_C5.2 (runOps [LOp.start]) (by decide)⟩

/-- C6: stopping while the reconciliation coroutine sleeps returns normally
(`Except.ok`, nothing propagates to the caller), completes no further sweep
(the sweep counter is unchanged and no sweep/wake step applies afterwards),
leaves the live-task count decremented and the task reference cleared, and a
subsequent `start_cleanup_task` launches a fresh task. -/
theorem claim_C6 (s : LState) (h : s.cleanup_task = some Phase.sleeping) :
    stop_cleanup_task s = Except.ok (stopState s) ∧
    (stopState s).sweepCount = s.sweepCount ∧
    (stopState s).cleanup_task = none ∧
    (stopState s).liveTasks = s.liveTasks - 1 ∧
    finishSweep (stopState s) = stopState s ∧
    wakeFromSleep (stopState s) = stopState s ∧
    (start_cleanup_task (stopState s)).cleanup_task = some Phase.sweeping := by
  have hsome : s.cleanup_task.isSome = true := by rw [h]; rfl
  simp [stop_cleanup_task, stopState, hsome, finishSweep, wakeFromSleep,
    start_cleanup_task]

theorem claim_C6_witness :
    stop_cleanup_task (runOps [LOp.start, LOp.finish]) =
      Except.ok (stopState (runOps [LOp.start, LOp.finish])) ∧
    (stopState (runOps [LOp.start, LOp.finish])).sweepCount =
      (runOps [LOp.start, LOp.finish]).sweepCount ∧
    (stopState (runOps [LOp.start, LOp.finish])).cleanup_task = none ∧
    (stopState (runOps [LOp.start, LOp.finish])).liveTasks =
      (runOps [LOp.start, LOp.finish]).liveTasks - 1 ∧
    finishSweep (stopState (runOps [LOp.start, LOp.finish])) =
      stopState (runOps [LOp.start, LOp.finish]) ∧
    wakeFromSleep (stopState (runOps [LOp.start, LOp.finish])) =
      stopState (runOps [LOp.start, LOp.finish]) ∧
    (start_cleanup_task (stopState (runOps [LOp.start, LOp.finish]))).cleanup_task =
      some Phase.sweeping :=
  claim_C6 (runOps [LOp.start, LOp.finish]) (by decide)

/-- One sequence of `save_conversation` calls on the success path: each pair
in the list is the clock at that save and the `Conversation` object passed;
after each save the stored document for `ch` is read back and its
`updated_at` recorded. -/
def saveObservations (ch : String) (store : List Conversation) :
    List (Nat × Conversation) → List (Option Nat)
  | [] => []
  | (t, conv) :: rest =>
    ((find_one (saveStore t conv store) ch).map (fun c => c.updated_at)) ::
      saveObservations ch (saveStore t conv store) rest

theorem saveObservations_eq (ch : String) :
    ∀ (l : List (Nat × Conversation)) (store : List Conversation),
      (∀ x ∈ l, x.2.channel_id = ch) →
      saveObservations ch store l = l.map (fun x => some x.1) := by
  intro l
  induction l with
  | nil => intro store _; rfl
  | cons p rest ih =>
    intro store hp
    obtain ⟨t, conv⟩ := p
    have hc : conv.channel_id = ch := hp (t, conv) (List.mem_cons_self _ _)
    have hfind : find_one (saveStore t conv store) ch =
        some (setUpdatedAt t conv) := by
      rw [← hc]; exact find_one_saveStore t conv store
    simp [saveObservations, hfind, setUpdatedAt,
      ih _ (fun x hx => hp x (List.mem_cons_of_mem _ hx))]

/-- C7: for every sequence of saves to the same `channel_id`, the stored
document's `updated_at` observed after each successful save equals the clock
taken at that save, and — assuming the clock readings are non-decreasing —
the observed sequence is monotonically non-decreasing. -/
theorem claim_C7 (ch : String) (store : List Conversation)
    (l : List (Nat × Conversation))
    (hch : ∀ x ∈ l, x.2.channel_id = ch)
    (hclock : List.Chain' (fun a b => a ≤ b) (l.map Prod.fst)) :
    saveObservations ch store l = l.map (fun x => some x.1) ∧
    List.Chain' (fun a b : Option Nat => a.getD 0 ≤ b.getD 0)
      (saveObservations ch store l) := by
  have h1 := saveObservations_eq ch l store hch
  refine ⟨h1, ?_⟩
  rw [h1, List.chain'_map]
  have h2 := (List.chain'_map (f := Prod.fst)).mp hclock
  simpa using h2

theorem claim_C7_witness :
    saveObservations "c" [] [(1, ⟨"c", [], 0, 0⟩), (2, ⟨"c", [], 0, 0⟩)] =
      [some 1, some 2] ∧
    List.Chain' (fun a b : Option Nat => a.getD 0 ≤ b.getD 0)
      (saveObservations "c" [] [(1, ⟨"c", [], 0, 0⟩), (2, ⟨"c", [], 0, 0⟩)]) := by
  have h := claim_C7 "c" [] [(1, ⟨"c", [], 0, 0⟩), (2, ⟨"c", [], 0, 0⟩)]
    (by decide) (by simp)
  simpa using h
